import Mathlib

/-!
Verification development for the fds-stand FDA-standards pipeline.

The Python sources are shallowly embedded as Lean functions:

* `scraper.py`   — `extract_table_rows` (continuation-row reconstruction with
  carry state and header-template detection) and the pagination loop of
  `scrape_fda_standards` (modelled with explicit fuel and a fetch counter).
* `fda_db_operations.py` — `generate_unique_id`, `check_duplicates`,
  `insert_new_standards`, `update_s3_paths`, with DataFrames modelled as
  association-list frames and the MySQL table as a list of rows whose cell
  values are `Option String` (`none` = SQL NULL).  Storage failures that the
  Python code catches with `try/except` are modelled by explicit boolean
  outcome flags (`readOk` for the SELECT of existing ids, `insertOk` for
  `to_sql`).
* `pdf_html_generator.py` — `process_standard`'s control flow over an
  environment of S3 existence-probe and upload outcomes.

Library functions the code calls (the MD5 hex digest, `pd.to_datetime`
normalisation, `urljoin` against the base URL from the missing `config.py`)
are taken as function parameters: no claim below depends on their internals,
only on how the code routes data through them.
-/

namespace FdsStand

/-! ## Character-level string helpers

Python string operations used by the sources, re-implemented over `List Char`
by structural recursion so that every definition evaluates inside the kernel.
-/

/-- Does `pat` occur as a contiguous sublist of `l`?  (Python `pat in s`.) -/
def containsSub (l pat : List Char) : Bool :=
  match l with
  | [] => pat.isEmpty
  | _ :: t => pat.isPrefixOf l || containsSub t pat

/-- Python substring test `pat in s`. -/
def strContains (s pat : String) : Bool :=
  containsSub s.data pat.data

/-- The characters before the first occurrence of `"://"`, if any. -/
def schemeSplit : List Char → Option (List Char)
  | [] => none
  | c :: t =>
    if [':', '/', '/'].isPrefixOf (c :: t) then some []
    else (schemeSplit t).map (fun r => c :: r)

/-- A string is an absolute URL when it carries a nonempty alphabetic scheme
followed by `"://"` (the form produced by resolving against an http(s) base). -/
def hasUrlScheme (s : String) : Bool :=
  match schemeSplit s.data with
  | none => false
  | some sch => !sch.isEmpty && sch.all Char.isAlpha

/-! ## Scraper: `extract_table_rows` (src/scraper.py lines 26-78) -/

/-- An anchor (`<a>`) element inside a table cell: stripped text and `href`. -/
structure Anchor where
  text : String
  href : String
deriving DecidableEq

/-- One `<td>` cell: its stripped text and the first anchor inside it, if any
(`td.find("a")`). -/
structure Cell where
  text : String
  anchor : Option Anchor
deriving DecidableEq

/-- The dict built for each data row by `extract_table_rows`.  The four carried
fields are `Option String` because a continuation row met before any full row
copies the initial carry `[None, None, None, None]`. -/
structure ScrapedRow where
  date_of_entry : Option String
  specialty_task_group_area : Option String
  recognition_number : Option String
  extent_of_recognition : Option String
  standards_developing_organization : String
  standard_designation_number_and_date : String
  standard_title : String
  title_link : String
deriving DecidableEq

/-- The full-row dict of scraper.py lines 51-60.  `resolve` is
`urljoin(FDA_BASE_URL, ·)`; `FDA_BASE_URL` lives in the absent `config.py`, so
link resolution is a parameter throughout. -/
def mkFullRow (resolve : String → String) (tds : List Cell) : ScrapedRow :=
  let texts := tds.map Cell.text
  let a := (tds.getD 6 ⟨"", none⟩).anchor
  { date_of_entry := some (texts.getD 0 "")
    specialty_task_group_area := some (texts.getD 1 "")
    recognition_number := some (texts.getD 2 "")
    extent_of_recognition := some (texts.getD 3 "")
    standards_developing_organization := texts.getD 4 ""
    standard_designation_number_and_date := texts.getD 5 ""
    standard_title := match a with | some t => t.text | none => texts.getD 6 ""
    title_link := match a with | some t => resolve t.href | none => "" }

/-- The continuation-row dict of scraper.py lines 66-75, reading the carried
context `carry` (Python `carry[0] .. carry[3]`). -/
def mkContRow (resolve : String → String) (carry : List (Option String))
    (tds : List Cell) : ScrapedRow :=
  let texts := tds.map Cell.text
  let a := (tds.getD 2 ⟨"", none⟩).anchor
  { date_of_entry := carry.getD 0 none
    specialty_task_group_area := carry.getD 1 none
    recognition_number := carry.getD 2 none
    extent_of_recognition := carry.getD 3 none
    standards_developing_organization := texts.getD 0 ""
    standard_designation_number_and_date := texts.getD 1 ""
    standard_title := match a with | some t => t.text | none => texts.getD 2 ""
    title_link := match a with | some t => resolve t.href | none => "" }

/-- Python truthiness test `header_template and row_texts == header_template`:
`None` and the empty list are both falsy. -/
def headerMatches (ht : Option (List String)) (texts : List String) : Bool :=
  match ht with
  | none => false
  | some t => !t.isEmpty && texts == t

/-- The `for tr in table.find_all("tr")` loop of `extract_table_rows`,
threading the carry context and the header template. -/
def extractLoop (resolve : String → String) :
    List (List Cell) → List (Option String) → Option (List String) →
      List ScrapedRow × Option (List String)
  | [], _, ht => ([], ht)
  | tds :: rest, carry, ht =>
    if tds.isEmpty then extractLoop resolve rest carry ht
    else
      let texts := tds.map Cell.text
      if ht.isNone && texts.any (fun t => strContains t "Date") then
        extractLoop resolve rest carry (some texts)
      else if headerMatches ht texts then
        extractLoop resolve rest carry ht
      else if 7 ≤ tds.length then
        ((mkFullRow resolve tds) ::
            (extractLoop resolve rest ((texts.take 4).map some) ht).1,
          (extractLoop resolve rest ((texts.take 4).map some) ht).2)
      else if tds.length == 3 then
        ((mkContRow resolve carry tds) :: (extractLoop resolve rest carry ht).1,
          (extractLoop resolve rest carry ht).2)
      else
        extractLoop resolve rest carry ht

/-- `extract_table_rows(soup, header_template)`: `none` for the table models
`soup.find(...)` returning nothing; the carry starts as `[None]*4`. -/
def extract_table_rows (resolve : String → String)
    (table : Option (List (List Cell))) (ht : Option (List String)) :
    List ScrapedRow × Option (List String) :=
  match table with
  | none => ([], ht)
  | some trs => extractLoop resolve trs (List.replicate 4 none) ht

/-- Classifies a row the loop skips without emitting a record: an empty-`td`
row, the header-capture row (when no template is set and a cell text contains
`"Date"` — this sets the template), a row equal to the nonempty template, or
a row of a discarded cell count (neither at least seven nor exactly three).
Returns the header-template state afterwards, or `none` when the row is a
data row (full or continuation) and is not skipped. -/
def skipRow (ht : Option (List String)) (tds : List Cell) :
    Option (Option (List String)) :=
  if tds.isEmpty then some ht
  else if ht.isNone && (tds.map Cell.text).any (fun t => strContains t "Date") then
    some (some (tds.map Cell.text))
  else if headerMatches ht (tds.map Cell.text) then some ht
  else if 7 ≤ tds.length then none
  else if tds.length == 3 then none
  else some ht

/-- Folds `skipRow` over a row prefix: `some ht1` exactly when every row of
the prefix is skipped (so none is a data row), with `ht1` the header-template
state after the prefix. -/
def skipsAll : List (List Cell) → Option (List String) → Option (Option (List String))
  | [], ht => some ht
  | tds :: rest, ht => (skipRow ht tds).bind (skipsAll rest)

/-! ## Scraper: pagination (`scrape_fda_standards`, src/scraper.py lines 80-114)

The page fetch of `fetch_page` requests 500 records starting at a 1-based
offset; the mock source is a flat record list and a page is the 500-record
slice at the offset.  The loop is modelled with explicit fuel (the Python
`while True` has no bound) and a counter of issued fetches.
-/

/-- The page of up to 500 records a fetch at 1-based offset `start` yields. -/
def pageOf (src : List α) (start : Nat) : List α :=
  (src.drop (start - 1)).take 500

/-- The crawl loop: fetch, stop on an empty page, stop after appending a page
of fewer than 500 records, otherwise advance the offset by 500.  Returns the
accumulated records and the number of fetches issued. -/
def crawlLoop (src : List α) : Nat → Nat → List α → Nat → List α × Nat
  | 0, _, acc, n => (acc, n)
  | fuel + 1, start, acc, n =>
    let page := pageOf src start
    if page.isEmpty then (acc, n + 1)
    else if page.length < 500 then (acc ++ page, n + 1)
    else crawlLoop src fuel (start + 500) (acc ++ page) (n + 1)

/-- `scrape_fda_standards` over a mock source: start at offset 1 with nothing
accumulated and no fetch issued. -/
def scrape_fda_standards (src : List α) (fuel : Nat) : List α × Nat :=
  crawlLoop src fuel 1 [] 0

/-! ## Frames and database rows

A pandas DataFrame is a column-name list plus rows of string-valued cells
(the scraped frame is `.fillna("").astype(str)`, so its cells are never null).
A row of the MySQL table `fda_standards` has `Option String` cells, `none`
standing for SQL NULL.
-/

/-- One DataFrame row: association list from column name to string value. -/
abbrev FrameRow := List (String × String)

/-- One row of the `fda_standards` table; `none` is SQL NULL. -/
abbrev DBRow := List (String × Option String)

/-- A pandas DataFrame: column names plus rows. -/
structure Frame where
  cols : List String
  rows : List FrameRow
deriving DecidableEq

/-- `pd.DataFrame()`: no columns, no rows. -/
def emptyFrame : Frame := ⟨[], []⟩

/-- pandas `df.empty`: true when either axis has length zero. -/
def Frame.isEmpty (f : Frame) : Bool := f.rows.isEmpty || f.cols.isEmpty

/-- `row[c]` on a frame row.  pandas guarantees the key exists whenever the
column exists, and the code reads a column only after checking it is present,
so the `""` default is never observed on the guarded paths. -/
def getStr (r : FrameRow) (c : String) : String := (r.lookup c).getD ""

/-- Column assignment `df[c] = v` at row level: replace any existing binding. -/
def setKV {β : Type} (r : List (String × β)) (c : String) (v : β) :
    List (String × β) :=
  (c, v) :: r.filter (fun kv => !(kv.1 == c))

/-- Reading column `c` of a table row as SQL does: NULL when the column is
absent or holds NULL. -/
def getOpt (r : DBRow) (c : String) : Option String := (r.lookup c).join

/-- A frame row written to SQL: every string cell becomes a non-NULL value. -/
def toDBRow (r : FrameRow) : DBRow := r.map (fun kv => (kv.1, some kv.2))

/-- Column-list bookkeeping for `df[c] = ...`: pandas appends a new column at
the end and leaves the list unchanged when the column already exists. -/
def addCol (cols : List String) (c : String) : List String :=
  if cols.contains c then cols else cols ++ [c]

/-! ## `FDADatabaseOperations` (src/fda_db_operations.py) -/

/-- The three natural-key columns of `check_duplicates` (lines 63-67). -/
def required_cols : List String :=
  ["recognition_number", "standards_developing_organization",
   "standard_designation_number_and_date"]

/-- `generate_unique_id` (lines 31-36): the MD5 hex digest of the
`|`-separated natural-key concatenation.  `md5hex` is the digest function; no
claim depends on its internals, only on it being a fixed function. -/
def generate_unique_id (md5hex : String → String)
    (recognition_number standards_developing_organization
      standard_designation_number_and_date : String) : String :=
  md5hex (recognition_number ++ "|" ++ standards_developing_organization ++ "|"
    ++ standard_designation_number_and_date)

/-- The per-row identity computed by `df.apply` in `check_duplicates`
(lines 81-87). -/
def rowUid (md5hex : String → String) (r : FrameRow) : String :=
  generate_unique_id md5hex (getStr r "recognition_number")
    (getStr r "standards_developing_organization")
    (getStr r "standard_designation_number_and_date")

/-- `SELECT unique_id FROM fda_standards WHERE unique_id IS NOT NULL`
(lines 74-78). -/
def storeIds (store : List DBRow) : List String :=
  store.filterMap (fun r => getOpt r "unique_id")

/-- `check_duplicates` (lines 56-95).  `readOk = false` models the SELECT of
existing ids raising: the surrounding `except` logs and returns an empty
DataFrame.  Otherwise the `unique_id` column is added and rows whose id is
already stored are filtered out. -/
def check_duplicates (md5hex : String → String) (readOk : Bool)
    (store : List DBRow) (df : Frame) : Frame :=
  if df.isEmpty then emptyFrame
  else if required_cols.any (fun c => !(df.cols.contains c)) then emptyFrame
  else if !readOk then emptyFrame
  else
    let existing := storeIds store
    let rows2 := df.rows.map (fun r => setKV r "unique_id" (rowUid md5hex r))
    { cols := addCol df.cols "unique_id"
      rows := rows2.filter (fun r => !(existing.contains (getStr r "unique_id"))) }

/-- The column preparation `insert_new_standards` performs on one new row
(lines 104-128): set `aws_bucket`, NULL out `aws_key`/`aws_html_key`,
normalise `date_of_entry` through `pd.to_datetime(...).strftime` (the
parameter `normDate`, `none` when coercion produced NaT), and fill the two
string defaults when their columns are absent.  The `fillna` on present
string columns is a no-op because frame cells are non-null strings. -/
def insertRowOf (normDate : String → Option String) (cols : List String)
    (r : FrameRow) : DBRow :=
  let d1 := setKV (toDBRow r) "aws_bucket" (some "lexim-international")
  let d2 := setKV d1 "aws_key" none
  let d3 := setKV d2 "aws_html_key" none
  let d4 :=
    if cols.contains "date_of_entry" then
      setKV d3 "date_of_entry" (normDate (getStr r "date_of_entry"))
    else d3
  let d5 :=
    if cols.contains "standard_title" then d4
    else setKV d4 "standard_title" (some "")
  if cols.contains "specialty_task_group_area" then d5
  else setKV d5 "specialty_task_group_area" (some "UNKNOWN")

/-- `insert_new_standards` (lines 97-144): diff through `check_duplicates`,
return early on an empty diff, then append the prepared rows via `to_sql`.
`insertOk = false` models `to_sql` raising (the code then returns failure with
the exception text appended to the message). -/
def insert_new_standards (md5hex : String → String)
    (normDate : String → Option String) (readOk insertOk : Bool)
    (store : List DBRow) (df : Frame) : List DBRow × Bool × String :=
  let new_df := check_duplicates md5hex readOk store df
  if new_df.isEmpty then (store, true, "No new records to insert")
  else if !insertOk then (store, false, "Insert failed")
  else
    (store ++ new_df.rows.map (insertRowOf normDate new_df.cols), true,
      "Inserted " ++ toString new_df.rows.length ++ " records")

/-- `update_s3_paths` (lines 146-170): one UPDATE setting both artifact keys
on every row whose `title_link` equals the url, returning whether the UPDATE
touched at least one row.  SQL `title_link = :url` never matches a NULL cell. -/
def update_s3_paths (store : List DBRow)
    (title_link pdf_filename html_filename : String) : List DBRow × Bool :=
  let pdfKey := "FDA_STANDARDS/" ++ "PDF/" ++ pdf_filename
  let htmlKey := "FDA_STANDARDS/" ++ "HTML/" ++ html_filename
  let hits := fun r => getOpt r "title_link" == some title_link
  (store.map (fun r =>
      if hits r then setKV (setKV r "aws_key" (some pdfKey)) "aws_html_key" (some htmlKey)
      else r),
    store.any hits)

/-- A stored artifact-location field counts as set when it is non-NULL and
nonempty (the criterion of `get_sync_status` / `get_unprocessed_standards`). -/
def fieldSet (r : DBRow) (c : String) : Bool :=
  match getOpt r c with
  | some v => !(v == "")
  | none => false

/-- Derived processing state: a row is Complete when both artifact-location
fields are set. -/
def rowComplete (r : DBRow) : Bool :=
  fieldSet r "aws_key" && fieldSet r "aws_html_key"

/-! ## `FDAStandardsProcessor.process_standard` (src/pdf_html_generator.py) -/

/-- Python `str.strip()` whitespace characters. -/
def isPyWs (c : Char) : Bool :=
  c == ' ' || c == '\t' || c == '\n' || c == '\x0b' || c == '\x0c' || c == '\r'

/-- The characters `sanitize_filename` replaces with `'_'`. -/
def badFileChar (c : Char) : Bool :=
  c == '<' || c == '>' || c == ':' || c == '"' || c == '/' || c == '\\' ||
    c == '|' || c == '?' || c == '*' || c == '\n' || c == '\r'

/-- `sanitize_filename` (pdf_html_generator.py lines 62-65): substitute the
path-unsafe characters and newlines with `'_'`, then strip whitespace. -/
def sanitize_filename (s : String) : String :=
  let subst := s.data.map (fun c => if badFileChar c then '_' else c)
  ⟨(subst.dropWhile isPyWs).reverse.dropWhile isPyWs |>.reverse⟩

/-- One row of `get_unprocessed_standards` as consumed by `process_standard`:
the source url and the two artifact filenames derived from the record. -/
structure PipeEntry where
  title_link : String
  pdf_filename : String
  html_filename : String
deriving DecidableEq

/-- Outcomes of the external ObjectStore calls made for one entry: the two
existence probes and the two upload attempts. -/
structure S3World where
  pdfExists : Bool
  htmlExists : Bool
  pdfUploadOk : Bool
  htmlUploadOk : Bool
deriving DecidableEq

/-- Observable result of `process_standard`: its boolean return, the
PersistentStore contents afterwards, whether local artifact files were
rendered this run, and whether `os.remove` deleted them. -/
structure ProcOutcome where
  ok : Bool
  store : List DBRow
  filesCreated : Bool
  filesRemoved : Bool
deriving DecidableEq

/-- `process_standard` (lines 233-275) with `use_s3` as configured.  When both
artifacts already exist in S3 the entry is recorded complete immediately with
nothing rendered.  Otherwise detail extraction always yields a dict (its
exception path returns a fallback dict, so the `if not data` abort is dead),
both artifacts are rendered locally, and on the S3 path the PDF then the HTML
are uploaded: only when both succeed are the S3 paths recorded and the local
files removed. -/
def process_standard (use_s3 : Bool) (w : S3World) (store : List DBRow)
    (row : PipeEntry) : ProcOutcome :=
  let url := row.title_link
  let pdfName := sanitize_filename row.pdf_filename
  let htmlName := sanitize_filename row.html_filename
  if use_s3 && w.pdfExists && w.htmlExists then
    { ok := true, store := (update_s3_paths store url pdfName htmlName).1
      filesCreated := false, filesRemoved := false }
  else if use_s3 then
    if w.pdfUploadOk then
      if w.htmlUploadOk then
        { ok := true, store := (update_s3_paths store url pdfName htmlName).1
          filesCreated := true, filesRemoved := true }
      else { ok := false, store := store, filesCreated := true, filesRemoved := false }
    else { ok := false, store := store, filesCreated := true, filesRemoved := false }
  else { ok := true, store := store, filesCreated := true, filesRemoved := false }

/-! ## Frame construction from scraped rows (src/scraper.py line 112)

`pd.DataFrame(all_rows, columns=COLUMNS).fillna("").astype(str)`: the `None`
carried fields become NaN and are filled with `""`.  `COLUMNS` lives in the
absent `config.py`; modelled from the spec's `StandardRecord` field list.
-/

/-- Modelled from the spec: the `COLUMNS` constant of the missing `config.py`,
the eight `StandardRecord` fields in listing order (spec section 3). -/
def COLUMNS : List String :=
  ["date_of_entry", "specialty_task_group_area", "recognition_number",
   "extent_of_recognition", "standards_developing_organization",
   "standard_designation_number_and_date", "standard_title", "title_link"]

/-- One scraped dict as a frame row after `fillna("")`: absent carried values
become empty strings. -/
def rowToFrameRow (r : ScrapedRow) : FrameRow :=
  [("date_of_entry", r.date_of_entry.getD ""),
   ("specialty_task_group_area", r.specialty_task_group_area.getD ""),
   ("recognition_number", r.recognition_number.getD ""),
   ("extent_of_recognition", r.extent_of_recognition.getD ""),
   ("standards_developing_organization", r.standards_developing_organization),
   ("standard_designation_number_and_date", r.standard_designation_number_and_date),
   ("standard_title", r.standard_title),
   ("title_link", r.title_link)]

/-- The scraped DataFrame of `scrape_fda_standards`. -/
def scrapedFrame (rows : List ScrapedRow) : Frame :=
  ⟨COLUMNS, rows.map rowToFrameRow⟩

/-! ## Concrete sample data used by witnesses and counterexamples

The digest and date-normalisation parameters are instantiated with simple
total functions; every concrete fact below is insensitive to that choice
because the inputs involved are screened against empty or disjoint identity
sets.
-/

/-- Digest stand-in for concrete instances. -/
def idDigest : String → String := fun s => s

/-- Date-normalisation stand-in for concrete instances. -/
def idNorm : String → Option String := fun s => some s

/-- `urljoin FDA_BASE_URL` stand-in for concrete instances. -/
def sampleResolve : String → String := fun u => "https://example.org/" ++ u

/-- A full listing row: seven cells, anchor in the title cell. -/
def sampleFullCells : List Cell :=
  [⟨"01/02/2020", none⟩, ⟨"OR", none⟩, ⟨"16-1", none⟩, ⟨"Complete", none⟩,
   ⟨"AAMI", none⟩, ⟨"ST1 2020", none⟩, ⟨"Title One", some ⟨"Title One", "std/1"⟩⟩]

/-- A continuation listing row: exactly three cells, anchor in the title cell. -/
def sampleContCells : List Cell :=
  [⟨"ISO", none⟩, ⟨"ISO 9 2019", none⟩, ⟨"Title Two", some ⟨"Title Two", "std/2"⟩⟩]

/-- A seven-cell row whose first cell text contains the marker `"Date"`. -/
def headerLikeCells : List Cell :=
  [⟨"Date of Entry", none⟩, ⟨"Specialty", none⟩, ⟨"Number", none⟩,
   ⟨"Extent", none⟩, ⟨"Organization", none⟩, ⟨"Designation", none⟩,
   ⟨"Title", none⟩]

/-- A three-cell row whose first cell text contains the marker `"Date"`. -/
def headerLikeContCells : List Cell :=
  [⟨"Date of Entry", none⟩, ⟨"Designation", none⟩, ⟨"Title", none⟩]

/-- A full listing row with no anchor in the title cell. -/
def noAnchorCells : List Cell :=
  [⟨"01/02/2020", none⟩, ⟨"OR", none⟩, ⟨"16-1", none⟩, ⟨"Complete", none⟩,
   ⟨"AAMI", none⟩, ⟨"ST1 2020", none⟩, ⟨"Plain Title", none⟩]

/-- A record row with the three natural-key fields. -/
def dupRow : FrameRow :=
  [("recognition_number", "1-1"), ("standards_developing_organization", "AAMI"),
   ("standard_designation_number_and_date", "X 2020")]

/-- A batch holding the same record twice: one identity, two occurrences. -/
def dupFrame : Frame := ⟨required_cols, [dupRow, dupRow]⟩

/-- A well-formed single-record batch. -/
def sampleRow2 : FrameRow :=
  [("recognition_number", "2-2"), ("standards_developing_organization", "ISO"),
   ("standard_designation_number_and_date", "Y 2021"),
   ("title_link", "https://example.org/std/9")]

/-- A batch holding `sampleRow2` once. -/
def sampleFrame : Frame := ⟨required_cols ++ ["title_link"], [sampleRow2]⟩

/-- A store already holding `sampleRow2`'s identity under `idDigest`. -/
def sampleStoreWithId : List DBRow := [[("unique_id", some "2-2|ISO|Y 2021")]]

/-- A nonempty batch whose column set lacks
`standard_designation_number_and_date`. -/
def missingColFrame : Frame :=
  ⟨["recognition_number", "standards_developing_organization"],
   [[("recognition_number", "1-1"),
     ("standards_developing_organization", "AAMI")]]⟩

/-- An unprocessed catalog row matching `sampleEntry`'s url. -/
def pipeStoreRow : DBRow :=
  [("unique_id", some "u1"), ("title_link", some "https://example.org/std/9"),
   ("aws_key", none), ("aws_html_key", none)]

/-- A one-row store for pipeline witnesses. -/
def pipeStore : List DBRow := [pipeStoreRow]

/-- A pipeline entry pointing at `pipeStoreRow`. -/
def sampleEntry : PipeEntry :=
  ⟨"https://example.org/std/9", "a.pdf", "a.html"⟩

/-! ## Association-list lemmas -/

theorem lookup_filter_key_ne {β : Type} (r : List (String × β)) {c c' : String}
    (h : c' ≠ c) :
    (r.filter (fun kv => !(kv.1 == c))).lookup c' = r.lookup c' := by
  have hcc : (c' == c) = false := by simp [h]
  induction r with
  | nil => rfl
  | cons kv t ih =>
    obtain ⟨k, v⟩ := kv
    by_cases hk : k = c
    · subst hk
      simp [List.filter_cons, List.lookup, hcc, ih]
    · have hkeep : (!(k == c)) = true := by simp [hk]
      by_cases hck : c' = k
      · subst hck
        simp [List.filter_cons, hkeep, List.lookup]
      · have hck' : (c' == k) = false := by simp [hck]
        simp [List.filter_cons, hkeep, List.lookup, hck', ih]

theorem lookup_setKV_self {β : Type} (r : List (String × β)) (c : String) (v : β) :
    (setKV r c v).lookup c = some v := by
  simp [setKV, List.lookup]

theorem lookup_setKV_ne {β : Type} (r : List (String × β)) {c c' : String} (v : β)
    (h : c' ≠ c) : (setKV r c v).lookup c' = r.lookup c' := by
  have hne : (c' == c) = false := by simp [h]
  simp [setKV, List.lookup, hne, lookup_filter_key_ne r h]

theorem getStr_setKV_self (r : FrameRow) (c : String) (v : String) :
    getStr (setKV r c v) c = v := by
  simp [getStr, lookup_setKV_self]

theorem lookup_toDBRow (r : FrameRow) (c : String) :
    (toDBRow r).lookup c = (r.lookup c).map some := by
  induction r with
  | nil => rfl
  | cons kv t ih =>
    by_cases hc : c = kv.1
    · simp [toDBRow, List.lookup, hc]
    · have hne : (c == kv.1) = false := by simp [hc]
      simpa [toDBRow, List.lookup, hne] using ih

/-- The rows `insert_new_standards` writes keep the `unique_id` value computed
by `check_duplicates`: the column preparation never touches that column. -/
theorem getOpt_insertRowOf_uid (normDate : String → Option String)
    (cols : List String) (r : FrameRow) :
    getOpt (insertRowOf normDate cols r) "unique_id" = r.lookup "unique_id" := by
  have huid :
      (insertRowOf normDate cols r).lookup "unique_id" =
        (toDBRow r).lookup "unique_id" := by
    unfold insertRowOf
    split <;> split <;> split <;>
      simp [lookup_setKV_ne, (by decide : ("unique_id" : String) ≠ "aws_bucket"),
        (by decide : ("unique_id" : String) ≠ "aws_key"),
        (by decide : ("unique_id" : String) ≠ "aws_html_key"),
        (by decide : ("unique_id" : String) ≠ "date_of_entry"),
        (by decide : ("unique_id" : String) ≠ "standard_title"),
        (by decide : ("unique_id" : String) ≠ "specialty_task_group_area")]
  rw [getOpt, huid, lookup_toDBRow]
  cases r.lookup "unique_id" <;> rfl

theorem storeIds_append (s t : List DBRow) :
    storeIds (s ++ t) = storeIds s ++ storeIds t := by
  simp [storeIds]

theorem append_ne_empty_left (a b : String) (h : a.length ≠ 0) :
    (a ++ b) ≠ "" := by
  intro hx
  have hlen := congrArg String.length hx
  rw [String.length_append] at hlen
  simp at hlen
  exact h hlen.1

theorem frame_isEmpty_of_rows_nil (f : Frame) (h : f.rows = []) :
    f.isEmpty = true := by
  rw [Frame.isEmpty, h]
  rfl

theorem isEmpty_false_of_ne_nil {α : Type} {l : List α} (h : l ≠ []) :
    l.isEmpty = false := by
  cases l with
  | nil => exact absurd rfl h
  | cons a t => rfl

/-! ## Unfolding lemmas for `check_duplicates` / `insert_new_standards` -/

theorem check_duplicates_of_isEmpty (md5hex : String → String) (readOk : Bool)
    (store : List DBRow) (df : Frame) (h : df.isEmpty = true) :
    check_duplicates md5hex readOk store df = emptyFrame := by
  simp [check_duplicates, h]

theorem check_duplicates_of_missing (md5hex : String → String) (readOk : Bool)
    (store : List DBRow) (df : Frame)
    (h : required_cols.any (fun c => !(df.cols.contains c)) = true) :
    check_duplicates md5hex readOk store df = emptyFrame := by
  unfold check_duplicates
  by_cases hE : df.isEmpty = true
  · rw [if_pos hE]
  · rw [if_neg hE, if_pos h]

theorem check_duplicates_of_read_failed (md5hex : String → String)
    (store : List DBRow) (df : Frame) :
    check_duplicates md5hex false store df = emptyFrame := by
  unfold check_duplicates
  by_cases hE : df.isEmpty = true
  · rw [if_pos hE]
  · rw [if_neg hE]
    by_cases hM : required_cols.any (fun c => !(df.cols.contains c)) = true
    · rw [if_pos hM]
    · rw [if_neg hM, if_pos (by decide : (!false) = true)]

theorem check_duplicates_main (md5hex : String → String) (store : List DBRow)
    (df : Frame) (hE : df.isEmpty = false)
    (hM : required_cols.any (fun c => !(df.cols.contains c)) = false) :
    check_duplicates md5hex true store df =
      ⟨addCol df.cols "unique_id",
        (df.rows.map (fun r => setKV r "unique_id" (rowUid md5hex r))).filter
          (fun r => !((storeIds store).contains (getStr r "unique_id")))⟩ := by
  unfold check_duplicates
  rw [if_neg (by simp [hE]),
    if_neg (fun hx => absurd (hM ▸ hx) (by decide)),
    if_neg (by decide : ¬((!true) = true))]

theorem insert_of_check_isEmpty (md5hex : String → String)
    (normDate : String → Option String) (readOk insertOk : Bool)
    (store : List DBRow) (df : Frame)
    (h : (check_duplicates md5hex readOk store df).isEmpty = true) :
    insert_new_standards md5hex normDate readOk insertOk store df =
      (store, true, "No new records to insert") := by
  simp [insert_new_standards, h]

theorem insert_main (md5hex : String → String)
    (normDate : String → Option String) (readOk : Bool)
    (store : List DBRow) (df : Frame)
    (h : (check_duplicates md5hex readOk store df).isEmpty = false) :
    insert_new_standards md5hex normDate readOk true store df =
      (store ++
          (check_duplicates md5hex readOk store df).rows.map
            (insertRowOf normDate (check_duplicates md5hex readOk store df).cols),
        true,
        "Inserted " ++
          toString (check_duplicates md5hex readOk store df).rows.length ++
          " records") := by
  simp [insert_new_standards, h]

/-! ## Crawl-loop lemmas -/

/-- With enough fuel the crawl loop collects every record from the current
offset on and issues exactly `len / 500 + 1` further fetches, where `len` is
the number of records remaining. -/
theorem crawlLoop_collects {α : Type} (src : List α) :
    ∀ (fuel start n : Nat) (acc : List α), 1 ≤ start →
      (src.drop (start - 1)).length / 500 + 1 ≤ fuel →
      crawlLoop src fuel start acc n =
        (acc ++ src.drop (start - 1),
          n + ((src.drop (start - 1)).length / 500 + 1)) := by
  intro fuel
  induction fuel with
  | zero => intro start n acc h1 h2; omega
  | succ f ih =>
    intro start n acc h1 h2
    by_cases hz : (src.drop (start - 1)).length = 0
    · have hnil : src.drop (start - 1) = [] := List.length_eq_zero.mp hz
      have hpage : pageOf src start = [] := by simp [pageOf, hnil]
      simp [crawlLoop, hpage, hnil, hz]
    · by_cases hlt : (src.drop (start - 1)).length < 500
      · have hpage : pageOf src start = src.drop (start - 1) :=
          List.take_of_length_le (le_of_lt hlt)
        have hq : (src.drop (start - 1)).length / 500 = 0 := Nat.div_eq_of_lt hlt
        have hpe : (pageOf src start).isEmpty = false := by
          rw [hpage]
          cases hc : src.drop (start - 1) with
          | nil => rw [hc] at hz; simp at hz
          | cons a l => rfl
        simp only [crawlLoop]
        rw [if_neg (by simp [hpe]), if_pos (by rw [hpage]; exact hlt), hpage, hq]
      · push_neg at hlt
        have hplen : (pageOf src start).length = 500 := by
          rw [pageOf, List.length_take]
          omega
        have hpe : (pageOf src start).isEmpty = false := by
          cases hc : pageOf src start with
          | nil => rw [hc] at hplen; simp at hplen
          | cons a l => rfl
        have hdiv : (src.drop (start - 1)).length / 500 =
            ((src.drop (start - 1)).length - 500) / 500 + 1 :=
          Nat.div_eq_sub_div (by norm_num) hlt
        have hdrop : src.drop (start + 500 - 1) = (src.drop (start - 1)).drop 500 := by
          rw [List.drop_drop]
          congr 1
          omega
        have hlen2 : (src.drop (start + 500 - 1)).length =
            (src.drop (start - 1)).length - 500 := by
          rw [hdrop, List.length_drop]
        have key : ∀ L g : Nat, 500 ≤ L → L / 500 + 1 ≤ g + 1 →
            (L - 500) / 500 + 1 ≤ g := by
          intro L g hL hg
          omega
        have hih := ih (start + 500) (n + 1) (acc ++ pageOf src start)
          (by omega) (by rw [hlen2]; exact key _ f hlt h2)
        simp only [crawlLoop]
        rw [if_neg (by simp [hpe]), if_neg (by rw [hplen]; omega), hih, hlen2, hdrop]
        simp only [Prod.mk.injEq]
        constructor
        · rw [List.append_assoc]
          congr 1
          have hpg : pageOf src start = (src.drop (start - 1)).take 500 := rfl
          rw [hpg, List.take_append_drop]
        · omega

/-! ## Reconstructor step lemmas -/

/-- A nonempty row that is neither taken as the header template nor equal to
it and has at least seven cells yields a full-row record and replaces the
carry with its first four cell texts. -/
theorem extractLoop_cons_full (resolve : String → String) (tds : List Cell)
    (rest : List (List Cell)) (carry : List (Option String))
    (ht : Option (List String)) (h7 : 7 ≤ tds.length)
    (hdr1 : (ht.isNone &&
      (tds.map Cell.text).any (fun t => strContains t "Date")) = false)
    (hdr2 : headerMatches ht (tds.map Cell.text) = false) :
    extractLoop resolve (tds :: rest) carry ht =
      ((mkFullRow resolve tds) ::
          (extractLoop resolve rest (((tds.map Cell.text).take 4).map some) ht).1,
        (extractLoop resolve rest (((tds.map Cell.text).take 4).map some) ht).2) := by
  have hne : tds.isEmpty = false := by
    cases tds with
    | nil => simp at h7
    | cons a t => rfl
  simp only [extractLoop]
  rw [if_neg (by simp [hne]),
    if_neg (fun hx => absurd (hdr1 ▸ hx) (by decide)),
    if_neg (fun hx => absurd (hdr2 ▸ hx) (by decide)),
    if_pos h7]

/-- A row with exactly three cells that is not header-detected yields a
continuation record built from the current carry, leaving the carry as is. -/
theorem extractLoop_cons_cont (resolve : String → String) (tds : List Cell)
    (rest : List (List Cell)) (carry : List (Option String))
    (ht : Option (List String)) (h3 : tds.length = 3)
    (hdr1 : (ht.isNone &&
      (tds.map Cell.text).any (fun t => strContains t "Date")) = false)
    (hdr2 : headerMatches ht (tds.map Cell.text) = false) :
    extractLoop resolve (tds :: rest) carry ht =
      ((mkContRow resolve carry tds) :: (extractLoop resolve rest carry ht).1,
        (extractLoop resolve rest carry ht).2) := by
  have hne : tds.isEmpty = false := by
    cases tds with
    | nil => rw [List.length_nil] at h3; cases h3
    | cons a t => rfl
  simp only [extractLoop]
  rw [if_neg (by simp [hne]),
    if_neg (fun hx => absurd (hdr1 ▸ hx) (by decide)),
    if_neg (fun hx => absurd (hdr2 ▸ hx) (by decide)),
    if_neg (by rw [h3]; decide), if_pos (by rw [h3]; rfl)]

/-- A skipped row advances the loop without emitting a record and without
touching the carry; only the header-template state moves as `skipRow` says. -/
theorem extractLoop_cons_skip (resolve : String → String) (tds : List Cell)
    (rest : List (List Cell)) (carry : List (Option String))
    (ht ht2 : Option (List String)) (h : skipRow ht tds = some ht2) :
    extractLoop resolve (tds :: rest) carry ht =
      extractLoop resolve rest carry ht2 := by
  simp only [skipRow] at h
  simp only [extractLoop]
  by_cases h1 : tds.isEmpty = true
  · rw [if_pos h1] at h ⊢
    injection h with h
    rw [h]
  · rw [if_neg h1] at h ⊢
    by_cases h2 : (ht.isNone &&
        (tds.map Cell.text).any (fun t => strContains t "Date")) = true
    · rw [if_pos h2] at h ⊢
      injection h with h
      rw [h]
    · rw [if_neg h2] at h ⊢
      by_cases h3 : headerMatches ht (tds.map Cell.text) = true
      · rw [if_pos h3] at h ⊢
        injection h with h
        rw [h]
      · rw [if_neg h3] at h ⊢
        by_cases h4 : 7 ≤ tds.length
        · rw [if_pos h4] at h
          exact Option.noConfusion h
        · rw [if_neg h4] at h ⊢
          by_cases h5 : (tds.length == 3) = true
          · rw [if_pos h5] at h
            exact Option.noConfusion h
          · rw [if_neg h5] at h ⊢
            injection h with h
            rw [h]

/-- A prefix in which every row is skipped leaves the emitted records and the
carry untouched: the loop continues on the remaining rows with the
header-template state the prefix produced. -/
theorem extractLoop_skip_all (resolve : String → String)
    (lead : List (List Cell)) :
    ∀ (trs : List (List Cell)) (carry : List (Option String))
      (ht ht1 : Option (List String)), skipsAll lead ht = some ht1 →
      extractLoop resolve (lead ++ trs) carry ht =
        extractLoop resolve trs carry ht1 := by
  induction lead with
  | nil =>
    intro trs carry ht ht1 h
    simp only [skipsAll] at h
    injection h with h
    rw [List.nil_append, h]
  | cons tds lrest ih =>
    intro trs carry ht ht1 h
    simp only [skipsAll] at h
    cases hsr : skipRow ht tds with
    | none =>
      rw [hsr] at h
      exact Option.noConfusion h
    | some ht2 =>
      rw [hsr] at h
      rw [List.cons_append,
        extractLoop_cons_skip resolve tds (lrest ++ trs) carry ht ht2 hsr,
        ih trs carry ht2 ht1 h]

/-- Every record the reconstructor emits takes its `title_link` either from
resolving an anchor `href` or as the empty string when the cell has no
anchor. -/
theorem extractLoop_title_link (resolve : String → String)
    (trs : List (List Cell)) :
    ∀ (carry : List (Option String)) (ht : Option (List String))
      (rec : ScrapedRow), rec ∈ (extractLoop resolve trs carry ht).1 →
      (∃ href, rec.title_link = resolve href) ∨ rec.title_link = "" := by
  induction trs with
  | nil =>
    intro carry ht rec h
    simp [extractLoop] at h
  | cons tds rest ih =>
    intro carry ht rec h
    simp only [extractLoop] at h
    split at h
    · exact ih _ _ _ h
    · split at h
      · exact ih _ _ _ h
      · split at h
        · exact ih _ _ _ h
        · split at h
          · rcases List.mem_cons.mp h with hr | hr
            · subst hr
              cases ha : (tds.getD 6 ⟨"", none⟩).anchor with
              | none =>
                right
                show (match (tds.getD 6 ⟨"", none⟩).anchor with
                  | some t => resolve t.href
                  | none => "") = ""
                rw [ha]
              | some a =>
                left
                refine ⟨a.href, ?_⟩
                show (match (tds.getD 6 ⟨"", none⟩).anchor with
                  | some t => resolve t.href
                  | none => "") = resolve a.href
                rw [ha]
            · exact ih _ _ _ hr
          · split at h
            · rcases List.mem_cons.mp h with hr | hr
              · subst hr
                cases ha : (tds.getD 2 ⟨"", none⟩).anchor with
                | none =>
                  right
                  show (match (tds.getD 2 ⟨"", none⟩).anchor with
                    | some t => resolve t.href
                    | none => "") = ""
                  rw [ha]
                | some a =>
                  left
                  refine ⟨a.href, ?_⟩
                  show (match (tds.getD 2 ⟨"", none⟩).anchor with
                    | some t => resolve t.href
                    | none => "") = resolve a.href
                  rw [ha]
              · exact ih _ _ _ hr
            · exact ih _ _ _ h

/-- Reading an index below four out of the carry set by a full row with at
least four cell texts yields that cell text. -/
theorem take4_map_some_getD (l : List String) (i : Nat) (h4 : i < 4)
    (hl : i < l.length) :
    ((l.take 4).map some).getD i none = some (l.getD i "") := by
  rw [List.getD_eq_getElem?_getD, List.getElem?_map, List.getElem?_take,
    if_pos h4, List.getElem?_eq_getElem hl, List.getD_eq_getElem?_getD,
    List.getElem?_eq_getElem hl]
  rfl

/-! # Claims -/

/-- C4: pagination stops exactly when a page yields zero records or strictly
fewer than the page size of 500 (an empty page adds nothing, a short page's
records are still appended), continues when a page yields exactly 500, and a
1300-record source is crawled in exactly 3 fetches — pages of 500, 500 and
300 records — with no 4th fetch issued. -/
theorem crawl_pagination_c4 {α : Type} (src : List α) (fuel start n : Nat)
    (acc : List α) :
    (pageOf src start = [] → crawlLoop src (fuel + 1) start acc n = (acc, n + 1)) ∧
    (pageOf src start ≠ [] → (pageOf src start).length < 500 →
      crawlLoop src (fuel + 1) start acc n = (acc ++ pageOf src start, n + 1)) ∧
    ((pageOf src start).length = 500 →
      crawlLoop src (fuel + 1) start acc n =
        crawlLoop src fuel (start + 500) (acc ++ pageOf src start) (n + 1)) ∧
    (∀ f : Nat, 3 ≤ f →
      scrape_fda_standards (List.range 1300) f = (List.range 1300, 3)) ∧
    (pageOf (List.range 1300) 1).length = 500 ∧
    (pageOf (List.range 1300) 501).length = 500 ∧
    (pageOf (List.range 1300) 1001).length = 300 := by
  refine ⟨?_, ?_, ?_, ?_, ?_, ?_, ?_⟩
  · intro hp
    simp [crawlLoop, hp]
  · intro hne hlt
    have hpe : (pageOf src start).isEmpty = false := by
      cases hc : pageOf src start with
      | nil => exact absurd hc hne
      | cons a l => rfl
    simp only [crawlLoop]
    rw [if_neg (by simp [hpe]), if_pos hlt]
  · intro h500
    have hpe : (pageOf src start).isEmpty = false := by
      cases hc : pageOf src start with
      | nil => rw [hc] at h500; cases h500
      | cons a l => rfl
    simp only [crawlLoop]
    rw [if_neg (by simp [hpe]), if_neg (by rw [h500]; omega)]
  · intro f hf
    have h := crawlLoop_collects (List.range 1300) f 1 0 [] (le_refl 1)
      (by simp [List.length_range]; omega)
    rw [scrape_fda_standards, h]
    simp [List.length_range]
  · rw [pageOf, List.length_take, List.length_drop, List.length_range]
    omega
  · rw [pageOf, List.length_take, List.length_drop, List.length_range]
    omega
  · rw [pageOf, List.length_take, List.length_drop, List.length_range]
    omega

/-- C4 witness: the theorem applied at a 2-record source (a short first page)
and at the 1300-record source with fuel 3. -/
theorem crawl_pagination_c4_witness :
    crawlLoop ([1, 2] : List Nat) 1 1 [] 0 = ([1, 2], 1) ∧
    scrape_fda_standards (List.range 1300) 3 = (List.range 1300, 3) :=
  ⟨(crawl_pagination_c4 [1, 2] 0 1 0 []).2.1 (by decide) (by decide),
   (crawl_pagination_c4 ([] : List Nat) 0 1 0 []).2.2.2.1 3 (by norm_num)⟩

/-- C2 counterexample: a table of one full row (seven cells) followed by one
continuation row (three cells) for which the reconstructor yields one record,
not two.  With no header template yet set, the full row's `"Date"` cell text
makes it the detected header template, so it is skipped and only the
continuation row produces a record. -/
theorem reconstructor_pair_counterexample :
    ((extract_table_rows sampleResolve
        (some [headerLikeCells, sampleContCells]) none).1).length = 1 := by
  decide

/-- C2 (amended): for a table of one full row (at least seven cells) followed
by one continuation row (exactly three cells), provided neither row is taken
as the header template (no cell text containing `"Date"` while the template
is unset, and neither row equal to a set template), the reconstructor yields
exactly two records in row order and the continuation record's four carried
fields equal the full row's first four cell texts. -/
theorem reconstructor_pair_carry (resolve : String → String)
    (full cont : List Cell) (ht : Option (List String))
    (h7 : 7 ≤ full.length) (h3 : cont.length = 3)
    (hdrF : (ht.isNone &&
      (full.map Cell.text).any (fun t => strContains t "Date")) = false)
    (hmF : headerMatches ht (full.map Cell.text) = false)
    (hdrC : (ht.isNone &&
      (cont.map Cell.text).any (fun t => strContains t "Date")) = false)
    (hmC : headerMatches ht (cont.map Cell.text) = false) :
    ∃ a b, extract_table_rows resolve (some [full, cont]) ht = ([a, b], ht) ∧
      a = mkFullRow resolve full ∧
      b.date_of_entry = some ((full.map Cell.text).getD 0 "") ∧
      b.specialty_task_group_area = some ((full.map Cell.text).getD 1 "") ∧
      b.recognition_number = some ((full.map Cell.text).getD 2 "") ∧
      b.extent_of_recognition = some ((full.map Cell.text).getD 3 "") ∧
      b.standards_developing_organization = (cont.map Cell.text).getD 0 "" ∧
      b.standard_designation_number_and_date = (cont.map Cell.text).getD 1 "" := by
  have hlen : 4 ≤ (full.map Cell.text).length := by
    rw [List.length_map]
    omega
  refine ⟨mkFullRow resolve full,
    mkContRow resolve (((full.map Cell.text).take 4).map some) cont,
    ?_, rfl, ?_, ?_, ?_, ?_, rfl, rfl⟩
  · rw [extract_table_rows,
      extractLoop_cons_full resolve full [cont] (List.replicate 4 none) ht h7 hdrF hmF,
      extractLoop_cons_cont resolve cont [] _ ht h3 hdrC hmC]
    rfl
  · exact take4_map_some_getD _ 0 (by omega) (by omega)
  · exact take4_map_some_getD _ 1 (by omega) (by omega)
  · exact take4_map_some_getD _ 2 (by omega) (by omega)
  · exact take4_map_some_getD _ 3 (by omega) (by omega)

/-- C2 witness: the amended theorem applied to a concrete full row and
continuation row with no header template set. -/
theorem reconstructor_pair_carry_witness :
    ∃ a b, extract_table_rows sampleResolve
        (some [sampleFullCells, sampleContCells]) none = ([a, b], none) ∧
      a = mkFullRow sampleResolve sampleFullCells ∧
      b.date_of_entry = some ((sampleFullCells.map Cell.text).getD 0 "") ∧
      b.specialty_task_group_area = some ((sampleFullCells.map Cell.text).getD 1 "") ∧
      b.recognition_number = some ((sampleFullCells.map Cell.text).getD 2 "") ∧
      b.extent_of_recognition = some ((sampleFullCells.map Cell.text).getD 3 "") ∧
      b.standards_developing_organization = ((sampleContCells.map Cell.text).getD 0 "") ∧
      b.standard_designation_number_and_date = ((sampleContCells.map Cell.text).getD 1 "") :=
  reconstructor_pair_carry sampleResolve sampleFullCells sampleContCells none
    (by decide) (by decide) (by decide) (by decide) (by decide) (by decide)

/-- C7: for every page table whose first data row is a continuation row —
any prefix of skipped non-data rows (empty-`td` rows, the detected header
row, template-matching rows, discarded cell counts) may precede it, and no
full row does, since a full row is never skipped — the reconstructor yields
a record, never an error, whose four carried fields copy the initial carry
`None`, and in the scraped frame (`fillna("")` at scraper.py line 112) those
fields read back as empty strings, never null. -/
theorem leading_continuation_empty_carry (resolve : String → String)
    (lead : List (List Cell)) (cont : List Cell) (rest : List (List Cell))
    (ht ht1 : Option (List String)) (hlead : skipsAll lead ht = some ht1)
    (h3 : cont.length = 3)
    (hdrC : (ht1.isNone &&
      (cont.map Cell.text).any (fun t => strContains t "Date")) = false)
    (hmC : headerMatches ht1 (cont.map Cell.text) = false) :
    ∃ b, (extract_table_rows resolve (some (lead ++ cont :: rest)) ht).1 =
        b :: (extractLoop resolve rest (List.replicate 4 none) ht1).1 ∧
      b.date_of_entry = none ∧
      b.specialty_task_group_area = none ∧
      b.recognition_number = none ∧
      b.extent_of_recognition = none ∧
      getStr (rowToFrameRow b) "date_of_entry" = "" ∧
      getStr (rowToFrameRow b) "specialty_task_group_area" = "" ∧
      getStr (rowToFrameRow b) "recognition_number" = "" ∧
      getStr (rowToFrameRow b) "extent_of_recognition" = "" := by
  refine ⟨mkContRow resolve (List.replicate 4 none) cont, ?_, rfl, rfl, rfl, rfl,
    ?_, ?_, ?_, ?_⟩
  · rw [extract_table_rows,
      extractLoop_skip_all resolve lead (cont :: rest) (List.replicate 4 none)
        ht ht1 hlead,
      extractLoop_cons_cont resolve cont rest (List.replicate 4 none) ht1 h3 hdrC hmC]
  · simp [getStr, rowToFrameRow, List.lookup, mkContRow]
  · simp [getStr, rowToFrameRow, List.lookup, mkContRow]
  · simp [getStr, rowToFrameRow, List.lookup, mkContRow]
  · simp [getStr, rowToFrameRow, List.lookup, mkContRow]

/-- C7 witness: the theorem applied to a typical page — an empty-`td` row and
the detected header row precede the concrete continuation row. -/
theorem leading_continuation_empty_carry_witness :
    ∃ b, (extract_table_rows sampleResolve
        (some ([[], headerLikeCells] ++ sampleContCells :: [])) none).1 =
        b :: (extractLoop sampleResolve [] (List.replicate 4 none)
          (some (headerLikeCells.map Cell.text))).1 ∧
      b.date_of_entry = none ∧
      b.specialty_task_group_area = none ∧
      b.recognition_number = none ∧
      b.extent_of_recognition = none ∧
      getStr (rowToFrameRow b) "date_of_entry" = "" ∧
      getStr (rowToFrameRow b) "specialty_task_group_area" = "" ∧
      getStr (rowToFrameRow b) "recognition_number" = "" ∧
      getStr (rowToFrameRow b) "extent_of_recognition" = "" :=
  leading_continuation_empty_carry sampleResolve [[], headerLikeCells]
    sampleContCells [] none (some (headerLikeCells.map Cell.text))
    (by decide) (by decide) (by decide) (by decide)

/-- C8 counterexample: a full row whose title cell has no anchor yields a
record whose `title_link` is the empty string, which is not an absolute URL. -/
theorem absolute_link_counterexample :
    ((extract_table_rows sampleResolve (some [noAnchorCells]) none).1).map
        ScrapedRow.title_link = [""] ∧
    hasUrlScheme "" = false := by
  decide

/-- C8 (amended): every record the reconstructor produces has `title_link`
either resolved from an anchor `href` against the listing's base URL — hence
an absolute URL whenever resolution yields one — or equal to the empty string
when the title cell has no anchor. -/
theorem title_link_resolved_or_empty (resolve : String → String)
    (table : Option (List (List Cell))) (ht : Option (List String)) :
    (∀ rec ∈ (extract_table_rows resolve table ht).1,
      (∃ href, rec.title_link = resolve href) ∨ rec.title_link = "") ∧
    ((∀ u, hasUrlScheme (resolve u) = true) →
      ∀ rec ∈ (extract_table_rows resolve table ht).1,
        hasUrlScheme rec.title_link = true ∨ rec.title_link = "") := by
  have hbase : ∀ rec ∈ (extract_table_rows resolve table ht).1,
      (∃ href, rec.title_link = resolve href) ∨ rec.title_link = "" := by
    cases table with
    | none => intro rec h; simp [extract_table_rows] at h
    | some trs => exact fun rec h => extractLoop_title_link resolve trs _ _ rec h
  refine ⟨hbase, fun habs rec h => ?_⟩
  rcases hbase rec h with ⟨href, he⟩ | he
  · left
    rw [he]
    exact habs href
  · right
    exact he

/-- C8 witness: the amended theorem applied to a concrete one-row table whose
title cell holds an anchor. -/
theorem title_link_resolved_or_empty_witness :
    (∃ href, (mkFullRow sampleResolve sampleFullCells).title_link =
      sampleResolve href) ∨
    (mkFullRow sampleResolve sampleFullCells).title_link = "" :=
  (title_link_resolved_or_empty sampleResolve (some [sampleFullCells]) none).1
    (mkFullRow sampleResolve sampleFullCells) (by decide)

/-- C6: sync fails closed when a required natural-key column is missing from
the input: `check_duplicates` returns the empty frame and
`insert_new_standards` leaves the store untouched, reporting no new records
— regardless of the storage-operation outcomes. -/
theorem sync_missing_column_rejected (md5hex : String → String)
    (normDate : String → Option String) (readOk insertOk : Bool)
    (store : List DBRow) (df : Frame) (c : String)
    (hc : c ∈ required_cols) (hmiss : c ∉ df.cols) :
    check_duplicates md5hex readOk store df = emptyFrame ∧
    insert_new_standards md5hex normDate readOk insertOk store df =
      (store, true, "No new records to insert") := by
  have hcf : df.cols.contains c = false := by
    cases hb : df.cols.contains c
    · rfl
    · exact absurd (List.elem_iff.mp hb) hmiss
  have hany : required_cols.any (fun x => !(df.cols.contains x)) = true := by
    rw [List.any_eq_true]
    exact ⟨c, hc, by rw [hcf]; rfl⟩
  have h1 := check_duplicates_of_missing md5hex readOk store df hany
  exact ⟨h1, insert_of_check_isEmpty _ _ _ _ _ _ (by rw [h1]; rfl)⟩

/-- C6 witness: the theorem applied to a nonempty batch that lacks the
`standard_designation_number_and_date` column. -/
theorem sync_missing_column_rejected_witness :
    check_duplicates idDigest true [] missingColFrame = emptyFrame ∧
    insert_new_standards idDigest idNorm true true [] missingColFrame =
      ([], true, "No new records to insert") :=
  sync_missing_column_rejected idDigest idNorm true true [] missingColFrame
    "standard_designation_number_and_date" (by decide) (by decide)

/-- C9 counterexample: a sync run whose read of the existing-identity set
fails reports overall success, with the very same return value as a run that
genuinely found no new records — the storage failure is silently converted
into success and the two runs are indistinguishable at the return value. -/
theorem storage_error_swallowed_counterexample :
    insert_new_standards idDigest idNorm false true [] sampleFrame =
      ([], true, "No new records to insert") ∧
    insert_new_standards idDigest idNorm true true sampleStoreWithId
        sampleFrame =
      (sampleStoreWithId, true, "No new records to insert") := by
  decide

/-- C9 (amended): a failure of the existing-identity read is caught inside
`check_duplicates`, which returns an empty frame, so `insert_new_standards`
reports success with "No new records to insert" and performs no insert — a
storage read failure is indistinguishable at the return value from a
genuinely empty diff.  Only a failure of the insert write itself is reported
as a failure. -/
theorem storage_read_failure_reports_success (md5hex : String → String)
    (normDate : String → Option String) (insertOk : Bool)
    (store : List DBRow) (df df2 : Frame)
    (hne : (check_duplicates md5hex true store df2).isEmpty = false) :
    insert_new_standards md5hex normDate false insertOk store df =
      (store, true, "No new records to insert") ∧
    insert_new_standards md5hex normDate true false store df2 =
      (store, false, "Insert failed") := by
  constructor
  · exact insert_of_check_isEmpty _ _ _ _ _ _
      (by rw [check_duplicates_of_read_failed]; rfl)
  · simp [insert_new_standards, hne]

/-- C9 witness: the amended theorem applied to a concrete batch whose diff
against the empty store is nonempty. -/
theorem storage_read_failure_reports_success_witness :
    insert_new_standards idDigest idNorm false true [] sampleFrame =
      ([], true, "No new records to insert") ∧
    insert_new_standards idDigest idNorm true false [] sampleFrame =
      ([], false, "Insert failed") :=
  storage_read_failure_reports_success idDigest idNorm true [] sampleFrame
    sampleFrame (by decide)

/-- C5 counterexample: a batch holding two records with the same new identity
is inserted twice — sync keeps the later occurrence too, so the store ends up
carrying that identity twice, where the claim asks for the first occurrence
only. -/
theorem within_batch_duplicate_counterexample :
    (storeIds (insert_new_standards idDigest idNorm true true []
        dupFrame).1).count "1-1|AAMI|X 2020" = 2 := by
  decide

/-- C5 (amended): within-batch occurrences are screened only against the
identity set read at call start, never against each other: when a batch
holds two occurrences of one identity that is not yet stored, the insert
step inserts both occurrences, growing the stored count of that identity by
at least two. -/
theorem within_batch_duplicates_both_inserted (md5hex : String → String)
    (normDate : String → Option String) (store : List DBRow) (df : Frame)
    (pre mid post : List FrameRow) (r1 r2 : FrameRow)
    (hrows : df.rows = pre ++ r1 :: mid ++ r2 :: post)
    (hcols : ∀ c ∈ required_cols, c ∈ df.cols)
    (hsame : rowUid md5hex r2 = rowUid md5hex r1)
    (hnew : rowUid md5hex r1 ∉ storeIds store) :
    (storeIds store).count (rowUid md5hex r1) + 2 ≤
      (storeIds (insert_new_standards md5hex normDate true true
        store df).1).count (rowUid md5hex r1) := by
  have hcne : df.cols ≠ [] :=
    List.ne_nil_of_mem (hcols "recognition_number" (by decide))
  have hE : df.isEmpty = false := by
    rw [Frame.isEmpty,
      isEmpty_false_of_ne_nil (l := df.rows) (by rw [hrows]; simp),
      isEmpty_false_of_ne_nil hcne]
    rfl
  have hM : required_cols.any (fun x => !(df.cols.contains x)) = false := by
    rw [List.any_eq_false]
    intro x hx
    rw [show df.cols.contains x = true from List.elem_iff.mpr (hcols x hx)]
    decide
  have hcheck := check_duplicates_main md5hex store df hE hM
  have hcontu : (storeIds store).contains (rowUid md5hex r1) = false := by
    cases hb : (storeIds store).contains (rowUid md5hex r1)
    · rfl
    · exact absurd (List.elem_iff.mp hb) hnew
  have hP1 : (!((storeIds store).contains
      (getStr (setKV r1 "unique_id" (rowUid md5hex r1)) "unique_id"))) = true := by
    rw [getStr_setKV_self, hcontu]
    rfl
  have hP2 : (!((storeIds store).contains
      (getStr (setKV r2 "unique_id" (rowUid md5hex r2)) "unique_id"))) = true := by
    rw [getStr_setKV_self, hsame, hcontu]
    rfl
  have hkept : (check_duplicates md5hex true store df).rows =
      ((pre.map (fun r => setKV r "unique_id" (rowUid md5hex r))).filter
        (fun r => !((storeIds store).contains (getStr r "unique_id")))) ++
      (setKV r1 "unique_id" (rowUid md5hex r1)) ::
      (((mid.map (fun r => setKV r "unique_id" (rowUid md5hex r))).filter
        (fun r => !((storeIds store).contains (getStr r "unique_id")))) ++
      (setKV r2 "unique_id" (rowUid md5hex r2)) ::
      ((post.map (fun r => setKV r "unique_id" (rowUid md5hex r))).filter
        (fun r => !((storeIds store).contains (getStr r "unique_id"))))) := by
    rw [hcheck]
    show (df.rows.map _).filter _ = _
    rw [hrows]
    simp only [List.map_append, List.map_cons, List.filter_append,
      List.filter_cons, hP1, hP2, if_true]
    simp [List.append_assoc]
  have hne : (check_duplicates md5hex true store df).isEmpty = false := by
    have hr : (check_duplicates md5hex true store df).rows ≠ [] := by
      rw [hkept]
      simp
    have hcls : (check_duplicates md5hex true store df).cols ≠ [] := by
      rw [hcheck]
      show addCol df.cols "unique_id" ≠ []
      rw [addCol]
      split
      · exact hcne
      · simp
    rw [Frame.isEmpty, isEmpty_false_of_ne_nil hr, isEmpty_false_of_ne_nil hcls]
    rfl
  have hins := insert_main md5hex normDate true store df hne
  have hg1 : getOpt (insertRowOf normDate
      (check_duplicates md5hex true store df).cols
      (setKV r1 "unique_id" (rowUid md5hex r1))) "unique_id" =
      some (rowUid md5hex r1) := by
    rw [getOpt_insertRowOf_uid, lookup_setKV_self]
  have hg2 : getOpt (insertRowOf normDate
      (check_duplicates md5hex true store df).cols
      (setKV r2 "unique_id" (rowUid md5hex r2))) "unique_id" =
      some (rowUid md5hex r1) := by
    rw [getOpt_insertRowOf_uid, lookup_setKV_self, hsame]
  simp only [hins]
  rw [storeIds_append, List.count_append]
  have htail : 2 ≤ (storeIds ((check_duplicates md5hex true store df).rows.map
      (insertRowOf normDate (check_duplicates md5hex true store df).cols))).count
      (rowUid md5hex r1) := by
    rw [hkept]
    simp only [List.map_append, List.map_cons, storeIds, List.filterMap_append,
      List.filterMap_cons, hg1, hg2]
    simp only [List.count_append, List.count_cons_self]
    omega
  omega

/-- C5 witness for the amended theorem: a two-occurrence batch of one fresh
identity against the empty store. -/
theorem within_batch_duplicates_both_inserted_witness :
    (storeIds ([] : List DBRow)).count (rowUid idDigest dupRow) + 2 ≤
      (storeIds (insert_new_standards idDigest idNorm true true []
        dupFrame).1).count (rowUid idDigest dupRow) :=
  within_batch_duplicates_both_inserted idDigest idNorm [] dupFrame
    [] [] [] dupRow dupRow (by decide) (by decide) rfl (by decide)

/-- C1: sync is idempotent.  For an input with the required natural-key
columns present, after one run of the synchronizer every input record's
identity is in the store's identity set; the second run on the same input
therefore classifies the whole input as duplicates (its diff has no rows),
performs no insert, and returns the store of the first run unchanged with
the no-new-records message. -/
theorem sync_idempotent (md5hex : String → String)
    (normDate : String → Option String) (store : List DBRow) (df : Frame)
    (hcols : ∀ c ∈ required_cols, c ∈ df.cols) :
    (∀ r ∈ df.rows, rowUid md5hex r ∈
      storeIds (insert_new_standards md5hex normDate true true store df).1) ∧
    (check_duplicates md5hex true
      (insert_new_standards md5hex normDate true true store df).1 df).rows = [] ∧
    insert_new_standards md5hex normDate true true
        (insert_new_standards md5hex normDate true true store df).1 df =
      ((insert_new_standards md5hex normDate true true store df).1, true,
        "No new records to insert") := by
  have hcne : df.cols ≠ [] :=
    List.ne_nil_of_mem (hcols "recognition_number" (by decide))
  have hclsE : df.cols.isEmpty = false := isEmpty_false_of_ne_nil hcne
  have hM : required_cols.any (fun x => !(df.cols.contains x)) = false := by
    rw [List.any_eq_false]
    intro x hx
    rw [show df.cols.contains x = true from List.elem_iff.mpr (hcols x hx)]
    decide
  by_cases hE : df.isEmpty = true
  · -- empty input: both runs insert nothing
    have hrows : df.rows = [] := by
      rw [Frame.isEmpty, hclsE, Bool.or_false] at hE
      exact List.isEmpty_iff.mp hE
    have h1 : check_duplicates md5hex true store df = emptyFrame :=
      check_duplicates_of_isEmpty md5hex true store df hE
    have hrun1 : insert_new_standards md5hex normDate true true store df =
        (store, true, "No new records to insert") :=
      insert_of_check_isEmpty _ _ _ _ _ _
        (frame_isEmpty_of_rows_nil _ (by simp [h1, emptyFrame]))
    refine ⟨?_, ?_, ?_⟩
    · intro r hr
      rw [hrows] at hr
      cases hr
    · simp only [hrun1]
      simp [h1, emptyFrame]
    · simp only [hrun1]
  · -- nonempty input
    have hE' : df.isEmpty = false := by
      cases hb : df.isEmpty
      · rfl
      · exact absurd hb hE
    have hcheck := check_duplicates_main md5hex store df hE' hM
    by_cases hk : (df.rows.map (fun r => setKV r "unique_id" (rowUid md5hex r))).filter
        (fun r => !((storeIds store).contains (getStr r "unique_id"))) = []
    · -- every input row is already stored: first run inserts nothing
      have hrun1 : insert_new_standards md5hex normDate true true store df =
          (store, true, "No new records to insert") :=
        insert_of_check_isEmpty _ _ _ _ _ _
          (frame_isEmpty_of_rows_nil _ (by rw [hcheck]; exact hk))
      have hmem : ∀ r ∈ df.rows, rowUid md5hex r ∈ storeIds store := by
        intro r hr
        have hx := List.filter_eq_nil_iff.mp hk
          (setKV r "unique_id" (rowUid md5hex r)) (List.mem_map_of_mem _ hr)
        rw [getStr_setKV_self] at hx
        by_cases hmem2 : rowUid md5hex r ∈ storeIds store
        · exact hmem2
        · exact absurd (by
            rw [show (storeIds store).contains (rowUid md5hex r) = false from by
              cases hb : (storeIds store).contains (rowUid md5hex r)
              · rfl
              · exact absurd (List.elem_iff.mp hb) hmem2]
            rfl) hx
      refine ⟨?_, ?_, ?_⟩
      · intro r hr
        simp only [hrun1]
        exact hmem r hr
      · simp only [hrun1]
        rw [hcheck]
        exact hk
      · simp only [hrun1]
    · -- some rows are new: the first run appends them
      have hne : (check_duplicates md5hex true store df).isEmpty = false := by
        have hcls2 : (check_duplicates md5hex true store df).cols ≠ [] := by
          rw [hcheck]
          show addCol df.cols "unique_id" ≠ []
          rw [addCol]
          split
          · exact hcne
          · simp
        have hr2 : (check_duplicates md5hex true store df).rows ≠ [] := by
          rw [hcheck]
          exact hk
        rw [Frame.isEmpty, isEmpty_false_of_ne_nil hr2, isEmpty_false_of_ne_nil hcls2]
        rfl
      have hins := insert_main md5hex normDate true store df hne
      have hmem1 : ∀ r ∈ df.rows, rowUid md5hex r ∈
          storeIds (insert_new_standards md5hex normDate true true store df).1 := by
        intro r hr
        simp only [hins]
        rw [storeIds_append, List.mem_append]
        by_cases hmem2 : rowUid md5hex r ∈ storeIds store
        · exact Or.inl hmem2
        · refine Or.inr ?_
          have hcont : (storeIds store).contains (rowUid md5hex r) = false := by
            cases hb : (storeIds store).contains (rowUid md5hex r)
            · rfl
            · exact absurd (List.elem_iff.mp hb) hmem2
          have hxmem : setKV r "unique_id" (rowUid md5hex r) ∈
              (check_duplicates md5hex true store df).rows := by
            rw [hcheck]
            refine List.mem_filter.mpr ⟨List.mem_map_of_mem _ hr, ?_⟩
            rw [getStr_setKV_self, hcont]
            rfl
          refine List.mem_filterMap.mpr
            ⟨insertRowOf normDate (check_duplicates md5hex true store df).cols
              (setKV r "unique_id" (rowUid md5hex r)),
             List.mem_map_of_mem _ hxmem, ?_⟩
          rw [getOpt_insertRowOf_uid, lookup_setKV_self]
      have hrows2 : (check_duplicates md5hex true
          (insert_new_standards md5hex normDate true true store df).1 df).rows = [] := by
        rw [check_duplicates_main md5hex _ df hE' hM]
        show List.filter _ _ = []
        rw [List.filter_eq_nil_iff]
        intro x hx
        rcases List.mem_map.mp hx with ⟨r, hr, rfl⟩
        rw [getStr_setKV_self,
          show (storeIds (insert_new_standards md5hex normDate true true
              store df).1).contains (rowUid md5hex r) = true from
            List.elem_iff.mpr (hmem1 r hr)]
        decide
      refine ⟨hmem1, hrows2, ?_⟩
      exact insert_of_check_isEmpty _ _ _ _ _ _
        (by rw [Frame.isEmpty, isEmpty_false_of_ne_nil
            (l := (check_duplicates md5hex true
              (insert_new_standards md5hex normDate true true store df).1 df).cols)
            ?_, Bool.or_false, hrows2]
            · rfl
            · rw [check_duplicates_main md5hex _ df hE' hM]
              show addCol df.cols "unique_id" ≠ []
              rw [addCol]
              split
              · exact hcne
              · simp)

/-- C1 witness: the theorem applied to a concrete one-record batch against
the empty store. -/
theorem sync_idempotent_witness :
    (∀ r ∈ sampleFrame.rows, rowUid idDigest r ∈
      storeIds (insert_new_standards idDigest idNorm true true [] sampleFrame).1) ∧
    (check_duplicates idDigest true
      (insert_new_standards idDigest idNorm true true [] sampleFrame).1
      sampleFrame).rows = [] ∧
    insert_new_standards idDigest idNorm true true
        (insert_new_standards idDigest idNorm true true [] sampleFrame).1
        sampleFrame =
      ((insert_new_standards idDigest idNorm true true [] sampleFrame).1, true,
        "No new records to insert") :=
  sync_idempotent idDigest idNorm [] sampleFrame (by decide)

/-- C3: pipeline-entry atomicity on partial upload failure.  On the S3 path
with at least one artifact absent from the object store (so the entry is not
skipped and uploads are attempted), the persistent store changes only when
both uploads succeed; in particular when the PDF upload succeeds and the
HTML upload fails, the store is left untouched — so artifact-location fields
that were unset stay unset — the entry reports failure, and the locally
rendered artifact files are not deleted; they are removed only on the
all-success path. -/
theorem partial_upload_failure_atomicity (w : S3World) (store : List DBRow)
    (entry : PipeEntry) (hnotskip : (w.pdfExists && w.htmlExists) = false) :
    ((process_standard true w store entry).store ≠ store →
      w.pdfUploadOk = true ∧ w.htmlUploadOk = true) ∧
    (w.pdfUploadOk = true → w.htmlUploadOk = false →
      (process_standard true w store entry).store = store ∧
      (process_standard true w store entry).ok = false ∧
      (process_standard true w store entry).filesCreated = true ∧
      (process_standard true w store entry).filesRemoved = false) ∧
    ((process_standard true w store entry).filesRemoved = true →
      w.pdfUploadOk = true ∧ w.htmlUploadOk = true ∧
      (process_standard true w store entry).ok = true) := by
  obtain ⟨pe, he, pu, hu⟩ := w
  cases pe <;> cases he <;> cases pu <;> cases hu <;> simp_all [process_standard]

/-- C3 witness: the theorem applied to an entry whose PDF upload succeeds and
whose HTML upload fails against a concrete one-row store. -/
theorem partial_upload_failure_atomicity_witness :
    (process_standard true ⟨false, false, true, false⟩ pipeStore
      sampleEntry).store = pipeStore ∧
    (process_standard true ⟨false, false, true, false⟩ pipeStore
      sampleEntry).ok = false ∧
    (process_standard true ⟨false, false, true, false⟩ pipeStore
      sampleEntry).filesCreated = true ∧
    (process_standard true ⟨false, false, true, false⟩ pipeStore
      sampleEntry).filesRemoved = false :=
  (partial_upload_failure_atomicity ⟨false, false, true, false⟩ pipeStore
    sampleEntry (by decide)).2.1 rfl rfl

/-- C10: completion is recorded by source URL, not by identity.
`update_s3_paths` keeps the store's length, makes every row whose
`title_link` equals the url Complete (both artifact-location fields set to
nonempty keys), reports success exactly when some row carries that url,
leaves the store untouched (reporting failure) when no row matches, and
`process_standard` records completion through exactly this url-keyed update
on both success paths (artifacts already present, or both uploads
succeeded) — so rows sharing one `title_link` are all marked complete
together, and an entry whose url matches no row never marks anything. -/
theorem completion_recorded_by_url (store : List DBRow)
    (url pdfName htmlName : String) :
    (update_s3_paths store url pdfName htmlName).1.length = store.length ∧
    (∀ r ∈ (update_s3_paths store url pdfName htmlName).1,
      getOpt r "title_link" = some url → rowComplete r = true) ∧
    ((update_s3_paths store url pdfName htmlName).2 = true ↔
      ∃ r ∈ store, getOpt r "title_link" = some url) ∧
    ((∀ r ∈ store, getOpt r "title_link" ≠ some url) →
      update_s3_paths store url pdfName htmlName = (store, false)) ∧
    (∀ (w : S3World) (entry : PipeEntry),
      (w.pdfExists && w.htmlExists) = true ∨
        (w.pdfUploadOk && w.htmlUploadOk) = true →
      (process_standard true w store entry).store =
        (update_s3_paths store entry.title_link
          (sanitize_filename entry.pdf_filename)
          (sanitize_filename entry.html_filename)).1) := by
  have hpdfne : (("FDA_STANDARDS/" ++ "PDF/" ++ pdfName) == "") = false :=
    beq_eq_false_iff_ne.mpr
      (append_ne_empty_left _ _ (by decide))
  have hhtmlne : (("FDA_STANDARDS/" ++ "HTML/" ++ htmlName) == "") = false :=
    beq_eq_false_iff_ne.mpr
      (append_ne_empty_left _ _ (by decide))
  refine ⟨?_, ?_, ?_, ?_, ?_⟩
  · simp [update_s3_paths]
  · intro r hr
    simp only [update_s3_paths] at hr
    rcases List.mem_map.mp hr with ⟨r0, hr0, rfl⟩
    by_cases hhit : (getOpt r0 "title_link" == some url) = true
    · intro _
      rw [if_pos hhit]
      rw [rowComplete, fieldSet, fieldSet]
      rw [show getOpt (setKV (setKV r0 "aws_key"
            (some ("FDA_STANDARDS/" ++ "PDF/" ++ pdfName))) "aws_html_key"
            (some ("FDA_STANDARDS/" ++ "HTML/" ++ htmlName))) "aws_key" =
          some ("FDA_STANDARDS/" ++ "PDF/" ++ pdfName) from by
        rw [getOpt, lookup_setKV_ne _ _ (by decide), lookup_setKV_self]
        rfl]
      rw [show getOpt (setKV (setKV r0 "aws_key"
            (some ("FDA_STANDARDS/" ++ "PDF/" ++ pdfName))) "aws_html_key"
            (some ("FDA_STANDARDS/" ++ "HTML/" ++ htmlName))) "aws_html_key" =
          some ("FDA_STANDARDS/" ++ "HTML/" ++ htmlName) from by
        rw [getOpt, lookup_setKV_self]
        rfl]
      simp
      exact ⟨append_ne_empty_left _ _ (by decide),
        append_ne_empty_left _ _ (by decide)⟩
    · rw [if_neg hhit]
      intro hc
      exact absurd (beq_iff_eq.mpr hc) hhit
  · simp only [update_s3_paths]
    rw [List.any_eq_true]
    constructor
    · rintro ⟨r, hr, hp⟩
      exact ⟨r, hr, beq_iff_eq.mp hp⟩
    · rintro ⟨r, hr, hp⟩
      exact ⟨r, hr, beq_iff_eq.mpr hp⟩
  · intro hno
    simp only [update_s3_paths, Prod.mk.injEq]
    constructor
    · have hmap : ∀ r ∈ store,
          (if (getOpt r "title_link" == some url) = true then
            setKV (setKV r "aws_key"
              (some ("FDA_STANDARDS/" ++ "PDF/" ++ pdfName))) "aws_html_key"
              (some ("FDA_STANDARDS/" ++ "HTML/" ++ htmlName))
          else r) = r := by
        intro r hr
        rw [if_neg]
        intro hb
        exact hno r hr (beq_iff_eq.mp hb)
      calc store.map _ = store.map id := List.map_congr_left hmap
        _ = store := List.map_id store
    · rw [List.any_eq_false]
      intro r hr hb
      exact hno r hr (beq_iff_eq.mp hb)
  · intro w entry hcase
    obtain ⟨pe, he, pu, hu⟩ := w
    cases pe <;> cases he <;> cases pu <;> cases hu <;>
      simp_all [process_standard]

/-- C10 witness: the theorem applied to a one-row store matched by the url. -/
theorem completion_recorded_by_url_witness :
    (update_s3_paths pipeStore "https://example.org/std/9" "a.pdf"
      "a.html").1.length = pipeStore.length ∧
    (update_s3_paths pipeStore "https://example.org/std/9" "a.pdf"
      "a.html").2 = true :=
  ⟨(completion_recorded_by_url pipeStore "https://example.org/std/9" "a.pdf"
      "a.html").1,
   (completion_recorded_by_url pipeStore "https://example.org/std/9" "a.pdf"
      "a.html").2.2.1.mpr ⟨pipeStoreRow, by decide, by decide⟩⟩

end FdsStand
